import Mathlib

/-!
Shallow embedding of `src/ui/views/login.rs` (`MainApp::login_view`).

The view is an immediate-mode frame function over the app state.  Per frame it:
renders a single-line text edit bound to `login_api_key` (the user may replace
its contents), renders the stored failure message when
`authenticated_user_id = Some(Err(msg))`, renders the submit button (enabled
iff the guard `is_authenticating_login_api_key` is false, labelled
"Validating..." while the guard is set, "Continue" otherwise), and on a click
with the guard clear it sets the guard to true and calls
`blocking_send(AsyncRequest::ValidateApiKey { api_key: login_api_key.clone() })`,
discarding the result with `.ok()`.

The channel is tokio's bounded mpsc sender: `blocking_send` returns `Err` when
the channel is closed, enqueues when there is capacity, and otherwise blocks
the calling thread until capacity appears.  Blocking is represented by the
`wouldBlock` result together with the frame's `blocked` flag, since no other
thread exists inside one frame to drain the queue.

The frame emits an ordered trace of its side effects (text mutation, guard
write, channel send) so that intra-frame ordering properties can be stated.
-/

/-- The request envelope type, `crate::app_state::AsyncRequest`; the login view
uses only the `ValidateApiKey` variant. -/
inductive AsyncRequest where
  | ValidateApiKey (api_key : String)
deriving DecidableEq, Repr

/-- Rust's `Result<T, E>`. -/
inductive RustResult (T E : Type) where
  | Ok (v : T)
  | Err (e : E)
deriving DecidableEq, Repr

/-- The fields of `MainApp` that `login_view` reads or writes:
the text bound to the API-key edit box, the in-flight guard, and the
reconciliation slot `authenticated_user_id : Option<Result<String, String>>`. -/
structure MainApp where
  login_api_key : String
  is_authenticating_login_api_key : Bool
  authenticated_user_id : Option (RustResult String String)
deriving DecidableEq, Repr

/-- The bounded mpsc request channel reached through
`app_state.async_request_tx`: whether the receiver side is gone, the bound,
and the queued envelopes. -/
structure Channel where
  closed : Bool
  capacity : Nat
  queue : List AsyncRequest
deriving DecidableEq, Repr

/-- Result of one `blocking_send` call: `sent` (Ok), `errClosed` (Err: receiver
dropped), or `wouldBlock` (the channel is full, so the call blocks the
calling thread). -/
inductive SendResult where
  | sent
  | errClosed
  | wouldBlock
deriving DecidableEq, Repr

/-- Semantics of `tokio::sync::mpsc::Sender::blocking_send` on the channel
model: error when closed, enqueue when below capacity, block when full. -/
def blocking_send (ch : Channel) (r : AsyncRequest) : SendResult × Channel :=
  if ch.closed then (SendResult.errClosed, ch)
  else if ch.queue.length < ch.capacity then
    (SendResult.sent, { ch with queue := ch.queue ++ [r] })
  else (SendResult.wouldBlock, ch)

/-- One observable side effect of a frame, in the order it happens. -/
inductive FrameEvent where
  | editText (t : String)
  | setGuard (b : Bool)
  | send (r : AsyncRequest) (res : SendResult)
deriving DecidableEq, Repr

/-- The user input consumed by one frame: an optional replacement for the text
edit's contents, and whether the submit button reported a click. -/
structure FrameInput where
  textEdit : Option String
  clicked : Bool
deriving DecidableEq, Repr

/-- Everything one call to `login_view` produces: the mutated app state, the
channel after any send, the ordered effect trace, whether the frame blocked
inside `blocking_send`, the inline error text rendered (if any), and the
submit button's enabled flag and label as rendered this frame. -/
structure FrameOutput where
  app : MainApp
  channel : Channel
  trace : List FrameEvent
  blocked : Bool
  renderedError : Option String
  buttonEnabled : Bool
  buttonLabel : String
deriving DecidableEq, Repr

/-- The trace contributed by the text edit widget. -/
def editTrace (input : FrameInput) : List FrameEvent :=
  match input.textEdit with
  | some t => [FrameEvent.editText t]
  | none => []

/-- One frame of `MainApp::login_view`.  The widget order follows the source:
text edit first, then the inline error label, then the submit button with its
click handler. -/
def login_view (app : MainApp) (input : FrameInput) (ch : Channel) : FrameOutput :=
  let key := match input.textEdit with
    | some t => t
    | none => app.login_api_key
  let app1 : MainApp := { app with login_api_key := key }
  let renderedError := match app1.authenticated_user_id with
    | some (RustResult.Err e) => some e
    | _ => none
  let buttonEnabled := !app1.is_authenticating_login_api_key
  let buttonLabel :=
    if app1.is_authenticating_login_api_key then "Validating..." else "Continue"
  if input.clicked && !app1.is_authenticating_login_api_key then
    let app2 : MainApp := { app1 with is_authenticating_login_api_key := true }
    let env := AsyncRequest.ValidateApiKey app2.login_api_key
    let sendOut := blocking_send ch env
    { app := app2
      channel := sendOut.2
      trace := editTrace input ++ [FrameEvent.setGuard true, FrameEvent.send env sendOut.1]
      blocked := sendOut.1 = SendResult.wouldBlock
      renderedError := renderedError
      buttonEnabled := buttonEnabled
      buttonLabel := buttonLabel }
  else
    { app := app1
      channel := ch
      trace := editTrace input
      blocked := false
      renderedError := renderedError
      buttonEnabled := buttonEnabled
      buttonLabel := buttonLabel }

/-- The envelopes a trace hands to the channel, in order. -/
def sentEnvelopes (t : List FrameEvent) : List AsyncRequest :=
  t.filterMap fun e => match e with
    | FrameEvent.send r _ => some r
    | _ => none

/-- The value of `login_api_key` after the text edit of a frame. -/
def keyAfterEdit (app : MainApp) (input : FrameInput) : String :=
  match input.textEdit with
  | some t => t
  | none => app.login_api_key

/-- C1: while the guard `is_authenticating_login_api_key` is true, a call to
`login_view` sends no envelope to the request channel: the trace contains no
send event and the channel is untouched, so a click during an in-flight
request is a no-op with respect to the channel. -/
theorem login_view_guard_suppresses_send (app : MainApp) (input : FrameInput) (ch : Channel)
    (h : app.is_authenticating_login_api_key = true) :
    sentEnvelopes (login_view app input ch).trace = [] ∧
      (login_view app input ch).channel = ch := by
  cases hte : input.textEdit <;>
    simp [login_view, h, editTrace, sentEnvelopes, hte]

/-- Witness for C1 at a concrete in-flight state with a click. -/
theorem login_view_guard_suppresses_send_witness :
    sentEnvelopes (login_view ⟨"sk_x", true, none⟩ ⟨none, true⟩ ⟨false, 8, []⟩).trace = [] ∧
      (login_view ⟨"sk_x", true, none⟩ ⟨none, true⟩ ⟨false, 8, []⟩).channel = ⟨false, 8, []⟩ :=
  login_view_guard_suppresses_send ⟨"sk_x", true, none⟩ ⟨none, true⟩ ⟨false, 8, []⟩ rfl

/-- C5: the inline error message rendered by `login_view` is exactly the
message held in the reconciliation slot when it holds a failure: `msg` is
rendered iff `authenticated_user_id = some (Err msg)`; when the slot is absent
or holds a success no inline error is rendered. -/
theorem login_view_renders_error_iff_failure (app : MainApp) (input : FrameInput) (ch : Channel)
    (msg : String) :
    (login_view app input ch).renderedError = some msg ↔
      app.authenticated_user_id = some (RustResult.Err msg) := by
  rcases app with ⟨key, guard, slot⟩
  cases hte : input.textEdit <;>
    by_cases hc : input.clicked <;>
      by_cases hg : guard <;>
        rcases slot with _ | ⟨v⟩ | ⟨e⟩ <;>
          simp [login_view, hte, hc, hg]

/-- C7: a frame with no click and no text entry mutates nothing: the guard,
the reconciliation slot and the text field are unchanged (the whole app state
is equal), the channel is untouched and the trace is empty. -/
theorem login_view_idle_frame_no_mutation (app : MainApp) (input : FrameInput) (ch : Channel)
    (hc : input.clicked = false) (ht : input.textEdit = none) :
    (login_view app input ch).app = app ∧ (login_view app input ch).channel = ch ∧
      (login_view app input ch).trace = [] := by
  simp [login_view, hc, ht, editTrace]

/-- Witness for C7 at a concrete quiescent frame. -/
theorem login_view_idle_frame_no_mutation_witness :
    (login_view ⟨"sk_x", false, some (RustResult.Err "bad")⟩ ⟨none, false⟩ ⟨false, 4, []⟩).app =
        ⟨"sk_x", false, some (RustResult.Err "bad")⟩ ∧
      (login_view ⟨"sk_x", false, some (RustResult.Err "bad")⟩ ⟨none, false⟩ ⟨false, 4, []⟩).channel =
        ⟨false, 4, []⟩ ∧
      (login_view ⟨"sk_x", false, some (RustResult.Err "bad")⟩ ⟨none, false⟩ ⟨false, 4, []⟩).trace = [] :=
  login_view_idle_frame_no_mutation ⟨"sk_x", false, some (RustResult.Err "bad")⟩ ⟨none, false⟩
    ⟨false, 4, []⟩ rfl rfl

/-- C10: `login_view` never clears the guard: if the guard is true on entry it
is true on exit, and every guard write in the trace writes `true`, so the
`Pending → Idle` transition can only happen outside this view. -/
theorem login_view_guard_monotone (app : MainApp) (input : FrameInput) (ch : Channel) :
    (app.is_authenticating_login_api_key = true →
        (login_view app input ch).app.is_authenticating_login_api_key = true) ∧
      ∀ b, FrameEvent.setGuard b ∈ (login_view app input ch).trace → b = true := by
  cases hte : input.textEdit <;>
    by_cases hg : app.is_authenticating_login_api_key <;>
      by_cases hc : input.clicked <;>
        simp [login_view, editTrace, hte, hg, hc]

/-- Witness for C10 at a concrete in-flight state. -/
theorem login_view_guard_monotone_witness :
    (login_view ⟨"sk_x", true, none⟩ ⟨none, true⟩ ⟨false, 4, []⟩).app.is_authenticating_login_api_key
      = true :=
  (login_view_guard_monotone ⟨"sk_x", true, none⟩ ⟨none, true⟩ ⟨false, 4, []⟩).1 rfl

/-- C4: a click while the guard is false (with the channel open and below
capacity) sets the guard to true and sends exactly one `ValidateApiKey`
envelope carrying the current `login_api_key` (the value after this frame's
text edit); in the frame's effect trace the guard write precedes the send. -/
theorem login_view_submit_sends_once (app : MainApp) (input : FrameInput) (ch : Channel)
    (hg : app.is_authenticating_login_api_key = false) (hc : input.clicked = true)
    (hcl : ch.closed = false) (hcap : ch.queue.length < ch.capacity) :
    (login_view app input ch).app.is_authenticating_login_api_key = true ∧
      sentEnvelopes (login_view app input ch).trace =
        [AsyncRequest.ValidateApiKey (keyAfterEdit app input)] ∧
      (login_view app input ch).channel.queue =
        ch.queue ++ [AsyncRequest.ValidateApiKey (keyAfterEdit app input)] ∧
      ∃ i j : Nat, i < j ∧
        (login_view app input ch).trace[i]? = some (FrameEvent.setGuard true) ∧
        (login_view app input ch).trace[j]? =
          some (FrameEvent.send (AsyncRequest.ValidateApiKey (keyAfterEdit app input))
            SendResult.sent) := by
  cases hte : input.textEdit
  case none =>
    refine ⟨?_, ?_, ?_, 0, 1, ?_, ?_, ?_⟩ <;>
      simp [login_view, blocking_send, editTrace, sentEnvelopes, keyAfterEdit, hg, hc, hcl, hcap, hte]
  case some t =>
    refine ⟨?_, ?_, ?_, 1, 2, ?_, ?_, ?_⟩ <;>
      simp [login_view, blocking_send, editTrace, sentEnvelopes, keyAfterEdit, hg, hc, hcl, hcap, hte]

/-- Witness for C4: concrete idle state, click, open non-full channel. -/
theorem login_view_submit_sends_once_witness :
    (login_view ⟨"sk_live", false, none⟩ ⟨none, true⟩ ⟨false, 8, []⟩).app.is_authenticating_login_api_key = true ∧
      sentEnvelopes (login_view ⟨"sk_live", false, none⟩ ⟨none, true⟩ ⟨false, 8, []⟩).trace =
        [AsyncRequest.ValidateApiKey (keyAfterEdit ⟨"sk_live", false, none⟩ ⟨none, true⟩)] ∧
      (login_view ⟨"sk_live", false, none⟩ ⟨none, true⟩ ⟨false, 8, []⟩).channel.queue =
        [] ++ [AsyncRequest.ValidateApiKey (keyAfterEdit ⟨"sk_live", false, none⟩ ⟨none, true⟩)] ∧
      ∃ i j : Nat, i < j ∧
        (login_view ⟨"sk_live", false, none⟩ ⟨none, true⟩ ⟨false, 8, []⟩).trace[i]? =
          some (FrameEvent.setGuard true) ∧
        (login_view ⟨"sk_live", false, none⟩ ⟨none, true⟩ ⟨false, 8, []⟩).trace[j]? =
          some (FrameEvent.send
            (AsyncRequest.ValidateApiKey (keyAfterEdit ⟨"sk_live", false, none⟩ ⟨none, true⟩))
            SendResult.sent) :=
  login_view_submit_sends_once ⟨"sk_live", false, none⟩ ⟨none, true⟩ ⟨false, 8, []⟩
    rfl rfl rfl (by decide)

/-- C6: the envelope is captured by value at click time: the queue gains
exactly `ValidateApiKey` of the click-time key, and a following frame — even
one that replaces the text field's contents — leaves the queued envelope
unchanged (the guard is now set, so the next frame touches the channel not at
all). -/
theorem login_view_envelope_by_value (app : MainApp) (input input2 : FrameInput) (ch : Channel)
    (hg : app.is_authenticating_login_api_key = false) (hc : input.clicked = true)
    (hcl : ch.closed = false) (hcap : ch.queue.length < ch.capacity) :
    (login_view app input ch).channel.queue =
        ch.queue ++ [AsyncRequest.ValidateApiKey (keyAfterEdit app input)] ∧
      (login_view (login_view app input ch).app input2 (login_view app input ch).channel).channel.queue =
        ch.queue ++ [AsyncRequest.ValidateApiKey (keyAfterEdit app input)] := by
  have h1 : (login_view app input ch).channel.queue =
      ch.queue ++ [AsyncRequest.ValidateApiKey (keyAfterEdit app input)] := by
    cases hte : input.textEdit <;>
      simp [login_view, blocking_send, keyAfterEdit, hg, hc, hcl, hcap, hte]
  have h2 : (login_view app input ch).app.is_authenticating_login_api_key = true := by
    cases hte : input.textEdit <;> simp [login_view, hg, hc, hte]
  have h3 : (login_view (login_view app input ch).app input2 (login_view app input ch).channel).channel =
      (login_view app input ch).channel := by
    generalize hO : login_view app input ch = o at h2 ⊢
    cases hte2 : input2.textEdit <;> simp [login_view, h2, hte2]
  exact ⟨h1, by rw [h3, h1]⟩

/-- Witness for C6: submit "sk_old", then a frame that types "sk_new"; the
queued envelope still carries "sk_old". -/
theorem login_view_envelope_by_value_witness :
    (login_view ⟨"sk_old", false, none⟩ ⟨none, true⟩ ⟨false, 8, []⟩).channel.queue =
        [] ++ [AsyncRequest.ValidateApiKey (keyAfterEdit ⟨"sk_old", false, none⟩ ⟨none, true⟩)] ∧
      (login_view (login_view ⟨"sk_old", false, none⟩ ⟨none, true⟩ ⟨false, 8, []⟩).app
          ⟨some "sk_new", true⟩
          (login_view ⟨"sk_old", false, none⟩ ⟨none, true⟩ ⟨false, 8, []⟩).channel).channel.queue =
        [] ++ [AsyncRequest.ValidateApiKey (keyAfterEdit ⟨"sk_old", false, none⟩ ⟨none, true⟩)] :=
  login_view_envelope_by_value ⟨"sk_old", false, none⟩ ⟨none, true⟩ ⟨some "sk_new", true⟩
    ⟨false, 8, []⟩ rfl rfl rfl (by decide)

/-- C8: the submission path leaves the stale outcome in place: on a click with
the guard clear, the reconciliation slot `authenticated_user_id` is exactly
what it was before the frame; only the guard (and, through the text edit, the
text field) is written. -/
theorem login_view_submit_leaves_outcome (app : MainApp) (input : FrameInput) (ch : Channel)
    (hg : app.is_authenticating_login_api_key = false) (hc : input.clicked = true) :
    (login_view app input ch).app.authenticated_user_id = app.authenticated_user_id ∧
      (login_view app input ch).app.is_authenticating_login_api_key = true ∧
      (login_view app input ch).app.login_api_key = keyAfterEdit app input := by
  cases hte : input.textEdit <;>
    simp [login_view, keyAfterEdit, hg, hc, hte]

/-- Witness for C8: a stale failure outcome survives the submission frame. -/
theorem login_view_submit_leaves_outcome_witness :
    (login_view ⟨"sk_2", false, some (RustResult.Err "invalid key")⟩ ⟨none, true⟩
        ⟨false, 8, []⟩).app.authenticated_user_id = some (RustResult.Err "invalid key") ∧
      (login_view ⟨"sk_2", false, some (RustResult.Err "invalid key")⟩ ⟨none, true⟩
        ⟨false, 8, []⟩).app.is_authenticating_login_api_key = true ∧
      (login_view ⟨"sk_2", false, some (RustResult.Err "invalid key")⟩ ⟨none, true⟩
        ⟨false, 8, []⟩).app.login_api_key =
        keyAfterEdit ⟨"sk_2", false, some (RustResult.Err "invalid key")⟩ ⟨none, true⟩ :=
  login_view_submit_leaves_outcome ⟨"sk_2", false, some (RustResult.Err "invalid key")⟩
    ⟨none, true⟩ ⟨false, 8, []⟩ rfl rfl

/-- C9: the send result is discarded (`.ok()`): when `blocking_send` fails
because the channel is closed, the guard stays true, no outcome is recorded,
the channel is untouched, the frame does not block, and every following frame
renders the submit button disabled with the "Validating..." label until some
path outside this view clears the guard. -/
theorem login_view_send_error_discarded (app : MainApp) (input : FrameInput) (ch : Channel)
    (hg : app.is_authenticating_login_api_key = false) (hc : input.clicked = true)
    (hcl : ch.closed = true) :
    (login_view app input ch).app.is_authenticating_login_api_key = true ∧
      (login_view app input ch).app.authenticated_user_id = app.authenticated_user_id ∧
      (login_view app input ch).channel = ch ∧
      (login_view app input ch).blocked = false ∧
      ∀ input2 ch2,
        (login_view (login_view app input ch).app input2 ch2).buttonEnabled = false ∧
        (login_view (login_view app input ch).app input2 ch2).buttonLabel = "Validating..." := by
  have h2 : (login_view app input ch).app.is_authenticating_login_api_key = true := by
    cases hte : input.textEdit <;> simp [login_view, hg, hc, hte]
  refine ⟨h2, ?_, ?_, ?_, ?_⟩
  · cases hte : input.textEdit <;> simp [login_view, hg, hc, hte]
  · cases hte : input.textEdit <;> simp [login_view, blocking_send, hg, hc, hcl, hte]
  · cases hte : input.textEdit <;> simp [login_view, blocking_send, hg, hc, hcl, hte]
  · intro input2 ch2
    generalize hO : login_view app input ch = o at h2 ⊢
    cases hte2 : input2.textEdit <;> simp [login_view, h2, hte2]

/-- Witness for C9: click with the worker gone; the state is stuck validating. -/
theorem login_view_send_error_discarded_witness :
    (login_view ⟨"sk_x", false, none⟩ ⟨none, true⟩ ⟨true, 8, []⟩).app.is_authenticating_login_api_key = true ∧
      (login_view ⟨"sk_x", false, none⟩ ⟨none, true⟩ ⟨true, 8, []⟩).app.authenticated_user_id = none ∧
      (login_view ⟨"sk_x", false, none⟩ ⟨none, true⟩ ⟨true, 8, []⟩).channel = ⟨true, 8, []⟩ ∧
      (login_view ⟨"sk_x", false, none⟩ ⟨none, true⟩ ⟨true, 8, []⟩).blocked = false ∧
      ∀ input2 ch2,
        (login_view (login_view ⟨"sk_x", false, none⟩ ⟨none, true⟩ ⟨true, 8, []⟩).app input2 ch2).buttonEnabled = false ∧
        (login_view (login_view ⟨"sk_x", false, none⟩ ⟨none, true⟩ ⟨true, 8, []⟩).app input2 ch2).buttonLabel = "Validating..." :=
  login_view_send_error_discarded ⟨"sk_x", false, none⟩ ⟨none, true⟩ ⟨true, 8, []⟩ rfl rfl rfl

/-- C2 (counter-evidence): submitting while the channel is closed leaves the
state Pending forever as far as this view is concerned — the guard is set, the
send error from `blocking_send` is discarded by `.ok()`, and no
`Failure(worker_unavailable)` (nor any other outcome) is written into
`authenticated_user_id`. -/
theorem login_view_closed_channel_stays_pending :
    (login_view ⟨"sk_x", false, none⟩ ⟨none, true⟩
        ⟨true, 8, []⟩).app.is_authenticating_login_api_key = true ∧
      (login_view ⟨"sk_x", false, none⟩ ⟨none, true⟩
        ⟨true, 8, []⟩).app.authenticated_user_id = none :=
  ⟨rfl, rfl⟩

/-- C3 (counter-evidence): submitting while the channel is open but full makes
`blocking_send` block the interactive thread — the frame stalls — and no
`Failure(overloaded)` (nor any other outcome) is written into
`authenticated_user_id`. -/
theorem login_view_full_channel_blocks :
    (login_view ⟨"sk_x", false, none⟩ ⟨none, true⟩
        ⟨false, 1, [AsyncRequest.ValidateApiKey "prev"]⟩).blocked = true ∧
      (login_view ⟨"sk_x", false, none⟩ ⟨none, true⟩
        ⟨false, 1, [AsyncRequest.ValidateApiKey "prev"]⟩).app.authenticated_user_id = none :=
  ⟨rfl, rfl⟩
